import Mathlib

/-!
A shallow embedding of the `WorkspaceManager` class of
`src/ui/WorkspaceManager.cpp` (RebelCODE).

The class coordinates workspace persistence (save / load / list / delete of
JSON workspace files in a `workspaces/` directory) and a single in-flight
drag-and-drop operation.

Modelling conventions:
* C++ exceptions (`std::exception` with a `what()` message) are modelled as
  `Except String`; a `.error` escaping a public operation's result type means
  an exception propagated across the public boundary.
* The three collaborator managers (window / docking / toolbar), the system
  clock and the filesystem are oracles packaged in `Env` and `FS`.
* Coordinates are modelled as `Rat` (the branching structure of the code
  only compares coordinates; no floating-point rounding is involved in any
  claim).
* JSON documents are modelled by the inductive `Json`.  `nlohmann::json`
  keeps object keys in a sorted map; our association-list model inserts in
  assignment order instead.  All properties are stated through key lookup,
  which is insensitive to the field order, and keys are unique in every
  document the code builds.
* The text encoding of a document (`dump(4)` / `operator>>`) is abstracted:
  a stored file holds either a parsed document (`Except.ok doc`) or a parse
  exception (`Except.error msg`).  No claim concerns the concrete text.
* `LOG_INFO` and memory allocation are modelled as non-throwing no-ops.
* Exception `what()` texts produced by the JSON library are abbreviated
  (e.g. "json key not found: version"); no claim depends on their exact
  wording, only on the wrapping prefixes added by the code itself.
-/

set_option autoImplicit false

namespace RebelCad

/-- The `Error` result type of `core/Error.h`: success, or a failure
carrying a message. -/
inductive Error where
  | success
  | failure (msg : String)
  deriving Repr, DecidableEq

/-- `Error::IsSuccess()`. -/
def Error.IsSuccess : Error → Bool
  | .success => true
  | .failure _ => false

/-- `Error::GetMessage()` (empty for success). -/
def Error.GetMessage : Error → String
  | .success => ""
  | .failure m => m

/-- JSON values (model of `nlohmann::json`). -/
inductive Json where
  | null
  | bool (b : Bool)
  | num (q : Rat)
  | str (s : String)
  | arr (elems : List Json)
  | obj (fields : List (String × Json))

/-- Replace the binding for `k`, or append it if absent (association lists
with unique keys; models assignment into a JSON object). -/
def setEntry {α : Type} : List (String × α) → String → α → List (String × α)
  | [], k, v => [(k, v)]
  | (k₀, v₀) :: rest, k, v =>
    if k₀ = k then (k, v) :: rest else (k₀, v₀) :: setEntry rest k v

/-- `state[key] = value`: assignment into a JSON object.  Assigning into a
`null` value first converts it to an empty object, as `nlohmann::json` does. -/
def Json.setKey : Json → String → Json → Json
  | .obj fields, k, v => .obj (setEntry fields k v)
  | _, k, v => .obj [(k, v)]

/-- Non-throwing key lookup (`contains` / `operator[]` on a const object). -/
def Json.getKey : Json → String → Option Json
  | .obj fields, k => fields.lookup k
  | _, _ => none

/-- `json::at(key)`: throws (models `out_of_range` / `type_error`) when the
key is absent or the value is not an object. -/
def Json.atKey : Json → String → Except String Json
  | .obj fields, k =>
    match fields.lookup k with
    | some v => .ok v
    | none => .error ("json key not found: " ++ k)
  | _, k => .error ("json key not found: " ++ k)

/-- Implicit conversion `std::string s = j;`: throws a `type_error` when the
value is not a string. -/
def Json.getStr : Json → Except String String
  | .str s => .ok s
  | _ => .error "json type must be string"

/-- `struct DraggableElement` of `WorkspaceManager.h`. -/
structure DraggableElement where
  id : Int
  type : String
  x : Rat
  y : Rat
  width : Rat
  height : Rat
  isDocked : Bool
  dockLocation : String

/-- The main window handle returned by `WindowManager::GetMainWindow`,
reduced to the two accessors the coordinator uses. -/
structure MainWindow where
  width : Rat
  height : Rat

/-- Observable calls the coordinator makes on its collaborators and on the
registered observer callback, in the order they are issued. -/
inductive Event where
  | dockElement (id : Int) (location : String)
  | updateWindowPosition (id : Int) (x y : Rat)
  | updateToolbarPosition (id : Int) (x y : Rat)
  | callback (dragged target : DraggableElement)
  | windowDeserialize (doc : Json)
  | dockingDeserialize (doc : Json)
  | toolbarDeserialize (doc : Json)

/-- The environment: behaviour of the three collaborator managers, the
observer callback results and the clock.  Each `Except String` result
models a call that may throw a `std::exception`. -/
structure Env where
  windowSerialize : Except String Json
  dockingSerialize : Except String Json
  toolbarSerialize : Except String Json
  windowDeserialize : Json → Except String Error
  dockingDeserialize : Json → Except String Error
  toolbarDeserialize : Json → Except String Error
  getMainWindow : Option MainWindow
  dockElement : Int → String → Except String Error
  updateWindowPosition : Int → Rat → Rat → Except String Unit
  updateToolbarPosition : Int → Rat → Rat → Except String Unit
  timestamp : Int

/-- Filesystem state of the `workspaces/` directory: filenames (with
extension) mapped to parsed content or a parse exception, whether directory
iteration succeeds, and which filenames can be opened for writing. -/
structure FS where
  files : List (String × Except String Json)
  dirOk : Bool
  openForWrite : String → Bool

/-- Read a file of the workspaces directory. -/
def FS.readFile (fs : FS) (fname : String) : Option (Except String Json) :=
  fs.files.lookup fname

/-- Write (create or overwrite) a file of the workspaces directory. -/
def FS.writeFile (fs : FS) (fname : String) (content : Except String Json) : FS :=
  { fs with files := setEntry fs.files fname content }

/-- Remove a file of the workspaces directory. -/
def FS.removeFile (fs : FS) (fname : String) : FS :=
  { fs with files := fs.files.filter (fun e => e.1 ≠ fname) }

/-- The mutable state of a `WorkspaceManager` instance: the owned
`current_drag_` pointer and the registered `drag_drop_callback_`.
A callback result `.error m` models the callback throwing. -/
structure WMState where
  current_drag : Option DraggableElement
  drag_drop_callback : Option (DraggableElement → DraggableElement → Except String Unit)

/-- `WorkspaceManager::GetDraggedElement`. -/
def GetDraggedElement (st : WMState) : Option DraggableElement :=
  st.current_drag

/-- `WorkspaceManager::SetDragDropCallback`. -/
def SetDragDropCallback (st : WMState)
    (cb : Option (DraggableElement → DraggableElement → Except String Unit)) : WMState :=
  { st with drag_drop_callback := cb }

/-- `WorkspaceManager::GetWorkspacePath` relative to the `workspaces/`
directory: `name + ".json"`. -/
def GetWorkspacePath (name : String) : String :=
  name ++ ".json"

/-- One character of the class `[a-zA-Z0-9_-]` of the validation regex. -/
def isValidNameChar (ch : Char) : Bool :=
  (ch ≥ 'a' && ch ≤ 'z') || (ch ≥ 'A' && ch ≤ 'Z') ||
  (ch ≥ '0' && ch ≤ '9') || ch = '_' || ch = '-'

/-- `WorkspaceManager::ValidateWorkspaceName`: empty names are rejected
first, then the regex `^[a-zA-Z0-9_-]+$` is matched. -/
def ValidateWorkspaceName (name : String) : Error :=
  if name.isEmpty then
    .failure "Workspace name cannot be empty"
  else if name.toList.all isValidNameChar then
    .success
  else
    .failure "Workspace name can only contain letters, numbers, underscores, and hyphens"

/-- `WorkspaceManager::BeginDrag`.  Nothing in its body throws in this
model (allocation and logging are abstracted), so the boundary result is
always `.ok`. -/
def BeginDrag (st : WMState) (element : DraggableElement) :
    Except String (Error × WMState) :=
  match st.current_drag with
  | some _ => .ok (.failure "A drag operation is already in progress", st)
  | none => .ok (.success, { st with current_drag := some element })

/-- `WorkspaceManager::UpdateDragPosition`: overwrites the position of the
current drag in place. -/
def UpdateDragPosition (st : WMState) (x y : Rat) :
    Except String (Error × WMState) :=
  match st.current_drag with
  | none => .ok (.failure "No drag operation in progress", st)
  | some d => .ok (.success, { st with current_drag := some { d with x := x, y := y } })

/-- `WorkspaceManager::IsValidDropTarget`: both coordinates non-negative
and within the main window's current width/height; `false` when the window
manager reports no main window. -/
def IsValidDropTarget (c : Env) (x y : Rat) : Bool :=
  if x < 0 then false
  else if y < 0 then false
  else
    match c.getMainWindow with
    | none => false
    | some mw => decide (x ≤ mw.width) && decide (y ≤ mw.height)

/-- The `try` block of `WorkspaceManager::EndDrag`, for an active drag
`drag`.  Returns the result and the trace of collaborator/callback calls
made; a `.error` carries the exception message and the calls made before
the throw. -/
def EndDragBody (c : Env) (drag target : DraggableElement)
    (callback : Option (DraggableElement → DraggableElement → Except String Unit)) :
    Except (String × List Event) (Error × List Event) :=
  if IsValidDropTarget c target.x target.y = false then
    .ok (.failure "Invalid drop target location", [])
  else
    let dockStep : Except (String × List Event) (Option Error × List Event) :=
      if target.isDocked then
        let ev := Event.dockElement drag.id target.dockLocation
        match c.dockElement drag.id target.dockLocation with
        | .error m => .error (m, [ev])
        | .ok res => .ok (if res.IsSuccess then none else some res, [ev])
      else
        .ok (none, [])
    match dockStep with
    | .error e => .error e
    | .ok (some err, tr) => .ok (err, tr)
    | .ok (none, tr) =>
      let cbStep : Except (String × List Event) (List Event) :=
        match callback with
        | none => .ok tr
        | some f =>
          let ev := Event.callback drag target
          match f drag target with
          | .error m => .error (m, tr ++ [ev])
          | .ok _ => .ok (tr ++ [ev])
      match cbStep with
      | .error e => .error e
      | .ok tr₂ =>
        let posStep : Except (String × List Event) (List Event) :=
          if drag.type = "window" then
            let ev := Event.updateWindowPosition drag.id target.x target.y
            match c.updateWindowPosition drag.id target.x target.y with
            | .error m => .error (m, tr₂ ++ [ev])
            | .ok _ => .ok (tr₂ ++ [ev])
          else if drag.type = "toolbar" then
            let ev := Event.updateToolbarPosition drag.id target.x target.y
            match c.updateToolbarPosition drag.id target.x target.y with
            | .error m => .error (m, tr₂ ++ [ev])
            | .ok _ => .ok (tr₂ ++ [ev])
          else
            .ok tr₂
        match posStep with
        | .error e => .error e
        | .ok tr₃ => .ok (.success, tr₃)

/-- `WorkspaceManager::EndDrag`.  Every exit of the `try` block — success,
invalid target, docking failure — and the `catch (const std::exception&)`
handler delete `current_drag_` and null it, so the drag is cleared on every
path past the initial guard.  The `catch` converts any exception raised in
the body into an error result. -/
def EndDrag (c : Env) (st : WMState) (target : DraggableElement) :
    Except String (Error × WMState × List Event) :=
  match st.current_drag with
  | none => .ok (.failure "No drag operation in progress", st, [])
  | some drag =>
    let cleared : WMState := { st with current_drag := none }
    match EndDragBody c drag target st.drag_drop_callback with
    | .ok (e, tr) => .ok (e, cleared, tr)
    | .error (m, tr) =>
      .ok (.failure ("Failed to complete drag operation: " ++ m), cleared, tr)

/-- `WorkspaceManager::SerializeCurrentState`: the three collaborator
sub-documents (each call may throw), the optional `drag_state` snapshot,
and the `version` / `timestamp` metadata. -/
def SerializeCurrentState (c : Env) (st : WMState) : Except String Json := do
  let jw ← c.windowSerialize
  let jd ← c.dockingSerialize
  let jt ← c.toolbarSerialize
  let base := ((Json.null.setKey "windows" jw).setKey "docking" jd).setKey "toolbars" jt
  let withDrag :=
    match st.current_drag with
    | none => base
    | some d =>
      base.setKey "drag_state" (Json.obj
        [("element_id", Json.num d.id),
         ("element_type", Json.str d.type),
         ("position_x", Json.num d.x),
         ("position_y", Json.num d.y),
         ("is_docked", Json.bool d.isDocked),
         ("dock_location", Json.str d.dockLocation)])
  return (withDrag.setKey "version" (Json.str "1.0")).setKey "timestamp" (Json.num c.timestamp)

/-- The `try` block of `WorkspaceManager::SaveWorkspace`, after name
validation has succeeded: serialize, open the file, write. -/
def SaveWorkspaceAfterValidation (c : Env) (st : WMState) (fs : FS) (name : String) :
    Except String (Error × FS) :=
  match SerializeCurrentState c st with
  | .error m => .ok (.failure ("Failed to save workspace: " ++ m), fs)
  | .ok doc =>
    if fs.openForWrite (GetWorkspacePath name) then
      .ok (.success, fs.writeFile (GetWorkspacePath name) (.ok doc))
    else
      .ok (.failure "Failed to open workspace file for writing", fs)

/-- `WorkspaceManager::SaveWorkspace`: validate the name, then serialize
and write inside a `try` that translates exceptions into
"Failed to save workspace: …". -/
def SaveWorkspace (c : Env) (st : WMState) (fs : FS) (name : String) :
    Except String (Error × FS) :=
  match ValidateWorkspaceName name with
  | .failure m => .ok (.failure m, fs)
  | .success => SaveWorkspaceAfterValidation c st fs name

/-- The `try` block of `WorkspaceManager::DeserializeAndApplyState`:
version check, then dispatch to the three collaborators in the fixed order
windows, docking, toolbars, short-circuiting on the first failure.  A
`.error` is an exception (missing key, wrong type, or a throwing
collaborator) together with the dispatches already made. -/
def DeserializeAndApplyStateBody (c : Env) (state : Json) :
    Except (String × List Event) (Error × List Event) :=
  match state.atKey "version" with
  | .error m => .error (m, [])
  | .ok v =>
    match v.getStr with
    | .error m => .error (m, [])
    | .ok version =>
      if version ≠ "1.0" then
        .ok (.failure "Unsupported workspace format version", [])
      else
        match state.atKey "windows" with
        | .error m => .error (m, [])
        | .ok jw =>
          let evw := Event.windowDeserialize jw
          match c.windowDeserialize jw with
          | .error m => .error (m, [evw])
          | .ok wr =>
            if wr.IsSuccess = false then .ok (wr, [evw])
            else
              match state.atKey "docking" with
              | .error m => .error (m, [evw])
              | .ok jd =>
                let evd := Event.dockingDeserialize jd
                match c.dockingDeserialize jd with
                | .error m => .error (m, [evw, evd])
                | .ok dr =>
                  if dr.IsSuccess = false then .ok (dr, [evw, evd])
                  else
                    match state.atKey "toolbars" with
                    | .error m => .error (m, [evw, evd])
                    | .ok jt =>
                      let evt := Event.toolbarDeserialize jt
                      match c.toolbarDeserialize jt with
                      | .error m => .error (m, [evw, evd, evt])
                      | .ok tr =>
                        if tr.IsSuccess = false then .ok (tr, [evw, evd, evt])
                        else .ok (.success, [evw, evd, evt])

/-- `WorkspaceManager::DeserializeAndApplyState`: the `catch` wraps any
exception of the body as "Failed to apply workspace state: …". -/
def DeserializeAndApplyState (c : Env) (state : Json) : Error × List Event :=
  match DeserializeAndApplyStateBody c state with
  | .ok (e, tr) => (e, tr)
  | .error (m, tr) => (.failure ("Failed to apply workspace state: " ++ m), tr)

/-- `WorkspaceManager::LoadWorkspace`: open the file (failure: "Workspace
file not found"), parse it (a parse exception is caught as "Failed to load
workspace: …"), then apply via `DeserializeAndApplyState`.  The function
never touches `current_drag_`, so the state passes through unchanged. -/
def LoadWorkspace (c : Env) (st : WMState) (fs : FS) (name : String) :
    Except String (Error × WMState × List Event) :=
  match fs.readFile (GetWorkspacePath name) with
  | none => .ok (.failure "Workspace file not found", st, [])
  | some (.error m) => .ok (.failure ("Failed to load workspace: " ++ m), st, [])
  | some (.ok doc) =>
    let (e, tr) := DeserializeAndApplyState c doc
    .ok (e, st, tr)

/-- Index of the last period in a list of characters. -/
def lastDotIdx : List Char → Option Nat
  | [] => none
  | c :: rest =>
    match lastDotIdx rest with
    | some i => some (i + 1)
    | none => if c = '.' then some 0 else none

/-- Stem and extension of a filename, as `std::filesystem::path::stem` /
`extension` split it: at the last period, unless the filename is `.` or
`..` or the only period is the leading character. -/
def splitStemExt (fname : String) : String × String :=
  if fname = "." ∨ fname = ".." then (fname, "")
  else
    let cs := fname.toList
    match lastDotIdx cs with
    | none => (fname, "")
    | some 0 => (fname, "")
    | some i => (String.mk (cs.take i), String.mk (cs.drop i))

/-- `WorkspaceManager::GetAvailableWorkspaces`: iterate the `workspaces/`
directory and collect the stems of the `.json` files.  The iteration is NOT
wrapped in a `try`: a filesystem error during enumeration escapes as an
exception (`.error`). -/
def GetAvailableWorkspaces (fs : FS) : Except String (List String) :=
  if fs.dirOk = false then
    .error "filesystem error: directory iterator failed"
  else
    .ok (fs.files.filterMap (fun e =>
      let (stem, ext) := splitStemExt e.1
      if ext = ".json" then some stem else none))

/-- `WorkspaceManager::DeleteWorkspace`: fail if the file is absent,
otherwise remove it; the body is wrapped in a `try` translating exceptions
into "Failed to delete workspace: …" (nothing throws in this model). -/
def DeleteWorkspace (fs : FS) (name : String) : Except String (Error × FS) :=
  match fs.readFile (GetWorkspacePath name) with
  | none => .ok (.failure "Workspace does not exist", fs)
  | some _ => .ok (.success, fs.removeFile (GetWorkspacePath name))

/-- Whether a boundary call returned a value (no exception propagated). -/
def returnsValue {α : Type} : Except String α → Bool
  | .ok _ => true
  | .error _ => false

/-! ### Concrete fixtures used to evaluate the model at specific inputs -/

/-- An environment in which all collaborators succeed: a `800 × 600` main
window, serializers producing small tagged documents, deserializers and
position updates that succeed, timestamp `42`. -/
def testEnv : Env where
  windowSerialize := .ok (Json.obj [("w", Json.num 1)])
  dockingSerialize := .ok (Json.obj [("d", Json.num 2)])
  toolbarSerialize := .ok (Json.obj [("t", Json.num 3)])
  windowDeserialize := fun _ => .ok .success
  dockingDeserialize := fun _ => .ok .success
  toolbarDeserialize := fun _ => .ok .success
  getMainWindow := some ⟨800, 600⟩
  dockElement := fun _ _ => .ok .success
  updateWindowPosition := fun _ _ _ => .ok ()
  updateToolbarPosition := fun _ _ _ => .ok ()
  timestamp := 42

/-- `testEnv` with a window deserializer that reports a failure result. -/
def envWinFail : Env :=
  { testEnv with windowDeserialize := fun _ => .ok (.failure "window deserialize failed") }

/-- `testEnv` with a docking deserializer that reports a failure result. -/
def envDockFail : Env :=
  { testEnv with dockingDeserialize := fun _ => .ok (.failure "docking deserialize failed") }

/-- `testEnv` with a toolbar deserializer that reports a failure result. -/
def envToolFail : Env :=
  { testEnv with toolbarDeserialize := fun _ => .ok (.failure "toolbar deserialize failed") }

/-- `testEnv` without a main window. -/
def envNoWindow : Env := { testEnv with getMainWindow := none }

/-- A window element being dragged. -/
def elemA : DraggableElement := ⟨1, "window", 100, 100, 50, 50, false, ""⟩

/-- An undocked drop target at `(200, 150)`. -/
def targetA : DraggableElement := ⟨2, "window", 200, 150, 50, 50, false, ""⟩

/-- Idle coordinator state: no drag, no callback. -/
def stIdle : WMState := ⟨none, none⟩

/-- Coordinator state with `elemA` being dragged, no callback. -/
def stDrag : WMState := ⟨some elemA, none⟩

/-- Coordinator state with `elemA` being dragged and a registered observer
callback that throws. -/
def stThrowingCb : WMState := ⟨some elemA, some (fun _ _ => .error "callback boom")⟩

/-- An empty, healthy workspaces directory. -/
def fsEmpty : FS := ⟨[], true, fun _ => true⟩

/-- A workspaces directory whose enumeration fails (e.g. the directory was
removed after construction). -/
def fsBadDir : FS := ⟨[], false, fun _ => true⟩

/-- A stored document with `windows` / `docking` / `toolbars` but no
`version` field. -/
def docNoVersion : Json :=
  Json.obj [("windows", Json.obj []), ("docking", Json.obj []), ("toolbars", Json.obj [])]

/-- A well-formed version-`"1.0"` document. -/
def docV1 : Json :=
  Json.obj [("version", Json.str "1.0"), ("windows", Json.obj []),
            ("docking", Json.obj []), ("toolbars", Json.obj [])]

/-- A document whose `version` is the string `"2.0"`. -/
def docV2 : Json := Json.obj [("version", Json.str "2.0")]

/-- Directory holding `w.json` without a `version` field. -/
def fsNoVersion : FS := ⟨[("w.json", .ok docNoVersion)], true, fun _ => true⟩

/-- Directory holding `w.json` with version `"2.0"`. -/
def fsV2 : FS := ⟨[("w.json", .ok docV2)], true, fun _ => true⟩

/-- Directory holding `w.json` with a well-formed version-`"1.0"` document. -/
def fsV1 : FS := ⟨[("w.json", .ok docV1)], true, fun _ => true⟩

/-- Directory holding a well-formed document under the name `a b`, which
fails name validation. -/
def fsSpaceName : FS := ⟨[("a b.json", .ok docV1)], true, fun _ => true⟩

/-- Directory holding `p.json` whose content fails to parse. -/
def fsParseErr : FS := ⟨[("p.json", .error "parse error")], true, fun _ => true⟩

/-! ### Claim theorems -/

/-- Claim C1, counterexample: a loaded document with no `version` field at
all does NOT fail with the version error message.  `state.at("version")`
throws, the `catch` wraps the exception, and the resulting message is
"Failed to apply workspace state: …", not "Unsupported workspace format
version". -/
theorem loadWorkspace_missing_version_counterexample :
    LoadWorkspace testEnv stIdle fsNoVersion "w" =
      .ok (.failure "Failed to apply workspace state: json key not found: version",
        stIdle, []) ∧
    "Failed to apply workspace state: json key not found: version" ≠
      "Unsupported workspace format version" :=
  ⟨rfl, by decide⟩

/-- Claim C1, amended: for every loaded document whose `version` field is
present with a string value other than `"1.0"`, `LoadWorkspace` fails with
"Unsupported workspace format version" regardless of the other fields;
a document with a missing (or non-string) `version` field instead fails
with the wrapped exception message "Failed to apply workspace state: …". -/
theorem loadWorkspace_version_check (c : Env) (st : WMState) (fs : FS) (name : String)
    (doc : Json) (s : String)
    (hfile : fs.readFile (GetWorkspacePath name) = some (.ok doc))
    (hver : doc.atKey "version" = .ok (Json.str s))
    (hne : s ≠ "1.0") :
    LoadWorkspace c st fs name =
      .ok (.failure "Unsupported workspace format version", st, []) := by
  simp [LoadWorkspace, DeserializeAndApplyState, DeserializeAndApplyStateBody,
    hfile, hver, Json.getStr, hne]

/-- Claim C1, witness: loading a stored document with version `"2.0"`. -/
theorem loadWorkspace_version_check_witness :
    LoadWorkspace testEnv stIdle fsV2 "w" =
      .ok (.failure "Unsupported workspace format version", stIdle, []) :=
  loadWorkspace_version_check testEnv stIdle fsV2 "w" docV2 "2.0" rfl rfl (by decide)

/-- Claim C2, counterexample: `GetAvailableWorkspaces` wraps its directory
iteration in no `try`, so a filesystem error during enumeration escapes as
an exception instead of being returned as a value. -/
theorem getAvailableWorkspaces_throws_counterexample :
    GetAvailableWorkspaces fsBadDir = .error "filesystem error: directory iterator failed" ∧
    returnsValue (GetAvailableWorkspaces fsBadDir) = false :=
  ⟨rfl, rfl⟩

/-- Claim C2, amended: `SaveWorkspace`, `LoadWorkspace`, `DeleteWorkspace`,
`BeginDrag`, `UpdateDragPosition` and `EndDrag` always return their result
as a value, translating internal I/O and parse exceptions into error
values with a descriptive message (e.g. a parse failure surfaces as
"Failed to load workspace: …"); `GetAvailableWorkspaces`, however, performs
its directory iteration outside any `try`, so a filesystem enumeration
error propagates as an exception to its caller. -/
theorem public_operations_boundary (c : Env) (st : WMState) (fs fsP fsB : FS)
    (name pname : String) (el tgt : DraggableElement) (x y : Rat) (pm : String)
    (hbad : fsB.dirOk = false)
    (hparse : fsP.readFile (GetWorkspacePath pname) = some (.error pm)) :
    returnsValue (BeginDrag st el) = true ∧
    returnsValue (UpdateDragPosition st x y) = true ∧
    returnsValue (EndDrag c st tgt) = true ∧
    returnsValue (SaveWorkspace c st fs name) = true ∧
    returnsValue (LoadWorkspace c st fs name) = true ∧
    returnsValue (DeleteWorkspace fs name) = true ∧
    LoadWorkspace c st fsP pname =
      .ok (.failure ("Failed to load workspace: " ++ pm), st, []) ∧
    GetAvailableWorkspaces fsB =
      .error "filesystem error: directory iterator failed" := by
  refine ⟨?_, ?_, ?_, ?_, ?_, ?_, ?_, ?_⟩
  · unfold BeginDrag
    cases h : st.current_drag <;> simp [h, returnsValue]
  · unfold UpdateDragPosition
    cases h : st.current_drag <;> simp [h, returnsValue]
  · unfold EndDrag
    cases h : st.current_drag with
    | none => simp [h, returnsValue]
    | some drag =>
      cases hb : EndDragBody c drag tgt st.drag_drop_callback with
      | ok r => cases r; simp [h, hb, returnsValue]
      | error e => cases e; simp [h, hb, returnsValue]
  · unfold SaveWorkspace
    cases ValidateWorkspaceName name with
    | success =>
      unfold SaveWorkspaceAfterValidation
      cases SerializeCurrentState c st with
      | ok doc =>
        by_cases h : fs.openForWrite (GetWorkspacePath name) = true
        · simp [h, returnsValue]
        · simp [Bool.eq_false_iff.mpr h, returnsValue]
      | error m => rfl
    | failure m => rfl
  · unfold LoadWorkspace
    cases h : fs.readFile (GetWorkspacePath name) with
    | none => rfl
    | some content => cases content <;> rfl
  · unfold DeleteWorkspace
    cases fs.readFile (GetWorkspacePath name) <;> rfl
  · simp [LoadWorkspace, hparse]
  · simp [GetAvailableWorkspaces, hbad]

/-- Claim C2, witness: the boundary behaviour at concrete inputs, including
a parse failure translated to a value and a failing directory iteration
propagating. -/
theorem public_operations_boundary_witness :
    returnsValue (BeginDrag stIdle elemA) = true ∧
    returnsValue (UpdateDragPosition stIdle 1 2) = true ∧
    returnsValue (EndDrag testEnv stIdle targetA) = true ∧
    returnsValue (SaveWorkspace testEnv stIdle fsEmpty "n") = true ∧
    returnsValue (LoadWorkspace testEnv stIdle fsEmpty "n") = true ∧
    returnsValue (DeleteWorkspace fsEmpty "n") = true ∧
    LoadWorkspace testEnv stIdle fsParseErr "p" =
      .ok (.failure ("Failed to load workspace: " ++ "parse error"), stIdle, []) ∧
    GetAvailableWorkspaces fsBadDir =
      .error "filesystem error: directory iterator failed" :=
  public_operations_boundary testEnv stIdle fsEmpty fsParseErr fsBadDir
    "n" "p" elemA targetA 1 2 "parse error" rfl rfl

/-- Claim C3, counterexample: with a registered observer that throws,
`EndDrag` does NOT let the exception propagate — the callback is invoked
inside the `try` block, the `catch (const std::exception&)` handler
swallows it, and `EndDrag` returns the translated error value
"Failed to complete drag operation: …". -/
theorem endDrag_observer_exception_counterexample :
    EndDrag testEnv stThrowingCb targetA =
      .ok (.failure "Failed to complete drag operation: callback boom",
        { stThrowingCb with current_drag := none },
        [Event.callback elemA targetA]) ∧
    returnsValue (EndDrag testEnv stThrowingCb targetA) = true :=
  ⟨rfl, rfl⟩

/-- Claim C3, amended: during `EndDrag`, a registered observer callback is
invoked synchronously with the dragged element and the target, but an
exception raised by the observer IS caught by `EndDrag`'s catch-all
handler: it is translated into the error result
"Failed to complete drag operation: <message>" (with the drag state
cleared) rather than propagating to the caller. -/
theorem endDrag_observer_exception_translated (c : Env) (st : WMState)
    (drag target : DraggableElement)
    (f : DraggableElement → DraggableElement → Except String Unit) (m : String)
    (hdrag : st.current_drag = some drag)
    (hcb : st.drag_drop_callback = some f)
    (hvalid : IsValidDropTarget c target.x target.y = true)
    (hdock : target.isDocked = false)
    (hf : f drag target = .error m) :
    EndDrag c st target =
      .ok (.failure ("Failed to complete drag operation: " ++ m),
        { st with current_drag := none },
        [Event.callback drag target]) := by
  simp [EndDrag, hdrag, EndDragBody, hvalid, hdock, hcb, hf]

/-- Claim C3, witness: the throwing-observer scenario at a concrete input. -/
theorem endDrag_observer_exception_translated_witness :
    EndDrag testEnv stThrowingCb targetA =
      .ok (.failure ("Failed to complete drag operation: " ++ "callback boom"),
        { stThrowingCb with current_drag := none },
        [Event.callback elemA targetA]) :=
  endDrag_observer_exception_translated testEnv stThrowingCb elemA targetA
    (fun _ _ => .error "callback boom") "callback boom" rfl rfl rfl rfl rfl

/-- Claim C4: whenever a drag is active, `EndDrag` leaves the drag state
absent — `GetDraggedElement` returns nothing — on every exit path (success,
invalid drop target, docking failure, internal exception), since every exit
of the `try` block and the `catch` handler delete and null `current_drag_`. -/
theorem endDrag_clears_drag_state (c : Env) (st : WMState)
    (target drag : DraggableElement) (r : Error × WMState × List Event)
    (hdrag : st.current_drag = some drag)
    (hr : EndDrag c st target = .ok r) :
    GetDraggedElement r.2.1 = none := by
  simp only [EndDrag, hdrag] at hr
  cases hb : EndDragBody c drag target st.drag_drop_callback with
  | ok p =>
    obtain ⟨e, tr⟩ := p
    rw [hb] at hr
    simp only [] at hr
    injection hr with h
    rw [← h]
    rfl
  | error p =>
    obtain ⟨m, tr⟩ := p
    rw [hb] at hr
    simp only [] at hr
    injection hr with h
    rw [← h]
    rfl

/-- Claim C4, witness: ending the concrete drag `stDrag` at `targetA`
leaves no dragged element. -/
theorem endDrag_clears_drag_state_witness :
    GetDraggedElement ((Error.success, ({ stDrag with current_drag := none } : WMState),
      [Event.updateWindowPosition 1 200 150]) : Error × WMState × List Event).2.1 = none :=
  endDrag_clears_drag_state testEnv stDrag targetA elemA
    (Error.success, { stDrag with current_drag := none },
      [Event.updateWindowPosition 1 200 150]) rfl rfl

/-- `IsValidDropTarget` is `false` whenever either coordinate is negative
or exceeds the main window's dimensions. -/
theorem isValidDropTarget_eq_false_of_outside (c : Env) (mw : MainWindow) (x y : Rat)
    (hmw : c.getMainWindow = some mw)
    (hout : x < 0 ∨ y < 0 ∨ mw.width < x ∨ mw.height < y) :
    IsValidDropTarget c x y = false := by
  unfold IsValidDropTarget
  rw [hmw]
  by_cases hx : x < 0
  · simp [hx]
  · by_cases hy : y < 0
    · simp [hx, hy]
    · rcases hout with h | h | h | h
      · exact absurd h hx
      · exact absurd h hy
      · simp [hx, hy, not_le.mpr h]
      · simp [hx, hy, not_le.mpr h]

/-- Claim C5: during an active drag, a target whose coordinates lie outside
`[0, mainWindow.width] × [0, mainWindow.height]` makes `EndDrag` fail with
"Invalid drop target location", with an empty call trace: no docking call,
no window/toolbar position update, no observer invocation. -/
theorem endDrag_invalid_target_no_effects (c : Env) (st : WMState)
    (drag target : DraggableElement) (mw : MainWindow)
    (hdrag : st.current_drag = some drag)
    (hmw : c.getMainWindow = some mw)
    (hout : target.x < 0 ∨ target.y < 0 ∨ mw.width < target.x ∨ mw.height < target.y) :
    EndDrag c st target =
      .ok (.failure "Invalid drop target location",
        { st with current_drag := none }, []) := by
  have hiv := isValidDropTarget_eq_false_of_outside c mw target.x target.y hmw hout
  simp [EndDrag, hdrag, EndDragBody, hiv]

/-- Claim C5, witness: ending the concrete drag at a target with a negative
x coordinate, against the `800 × 600` main window. -/
theorem endDrag_invalid_target_no_effects_witness :
    EndDrag testEnv stDrag { targetA with x := -1 } =
      .ok (.failure "Invalid drop target location",
        { stDrag with current_drag := none }, []) :=
  endDrag_invalid_target_no_effects testEnv stDrag elemA { targetA with x := -1 }
    ⟨800, 600⟩ rfl rfl (Or.inl (by decide))

/-- Claim C6: the drag state machine guards its transitions — `BeginDrag`
while a drag is active fails with "A drag operation is already in progress"
leaving the original drag state untouched, and `UpdateDragPosition` /
`EndDrag` while no drag is active fail with "No drag operation in progress"
leaving the state idle. -/
theorem drag_state_machine_guards (c : Env) (stA stI : WMState)
    (el tgt d : DraggableElement) (x y : Rat)
    (hA : stA.current_drag = some d) (hI : stI.current_drag = none) :
    BeginDrag stA el = .ok (.failure "A drag operation is already in progress", stA) ∧
    UpdateDragPosition stI x y = .ok (.failure "No drag operation in progress", stI) ∧
    EndDrag c stI tgt = .ok (.failure "No drag operation in progress", stI, []) := by
  refine ⟨?_, ?_, ?_⟩ <;> simp [BeginDrag, UpdateDragPosition, EndDrag, hA, hI]

/-- Claim C6, witness: the guards at concrete states. -/
theorem drag_state_machine_guards_witness :
    BeginDrag stDrag elemA =
      .ok (.failure "A drag operation is already in progress", stDrag) ∧
    UpdateDragPosition stIdle 1 2 =
      .ok (.failure "No drag operation in progress", stIdle) ∧
    EndDrag testEnv stIdle targetA =
      .ok (.failure "No drag operation in progress", stIdle, []) :=
  drag_state_machine_guards testEnv stDrag stIdle elemA targetA elemA 1 2 rfl rfl

/-- Claim C7: name validation gates `SaveWorkspace` only — Save fails with
the validation messages for the empty name and for any name containing a
character outside `[a-zA-Z0-9_-]`, and passes validation (proceeding to the
I/O phase) for every non-empty name over that character set; `LoadWorkspace`
and `DeleteWorkspace` validate nothing: they fail with their not-found
messages exactly when no matching file exists, and operate normally on a
stored file even under a name that would fail validation. -/
theorem name_validation_gates_save_only
    (c : Env) (st : WMState) (fs fsAbs fsHit : FS)
    (bad good anyName : String) (ch : Char) (doc : Json) (tr : List Event)
    (hch : ch ∈ bad.toList) (hbadc : isValidNameChar ch = false)
    (hg0 : good ≠ "") (hgc : ∀ c₂ ∈ good.toList, isValidNameChar c₂ = true)
    (habs : fsAbs.readFile (GetWorkspacePath anyName) = none)
    (hhit : fsHit.readFile (GetWorkspacePath bad) = some (.ok doc))
    (happ : DeserializeAndApplyState c doc = (.success, tr)) :
    SaveWorkspace c st fs "" = .ok (.failure "Workspace name cannot be empty", fs) ∧
    SaveWorkspace c st fs bad =
      .ok (.failure "Workspace name can only contain letters, numbers, underscores, and hyphens", fs) ∧
    ValidateWorkspaceName good = .success ∧
    SaveWorkspace c st fs good = SaveWorkspaceAfterValidation c st fs good ∧
    LoadWorkspace c st fsAbs anyName = .ok (.failure "Workspace file not found", st, []) ∧
    DeleteWorkspace fsAbs anyName = .ok (.failure "Workspace does not exist", fsAbs) ∧
    LoadWorkspace c st fsHit bad = .ok (.success, st, tr) := by
  have hbadEmpty : bad.isEmpty = false := by
    rw [Bool.eq_false_iff]
    intro hemp
    rw [String.isEmpty_iff] at hemp
    subst hemp
    simp at hch
  have hbadAll : bad.toList.all isValidNameChar = false := by
    rw [Bool.eq_false_iff]
    intro hall
    rw [List.all_eq_true] at hall
    have h := hall ch hch
    rw [hbadc] at h
    exact Bool.false_ne_true h
  have hgoodEmpty : good.isEmpty = false := by
    rw [Bool.eq_false_iff]
    intro hemp
    exact hg0 ((String.isEmpty_iff good).mp hemp)
  have hgoodAll : good.toList.all isValidNameChar = true := List.all_eq_true.mpr hgc
  have hvgood : ValidateWorkspaceName good = .success := by
    unfold ValidateWorkspaceName
    rw [hgoodEmpty, hgoodAll]
    simp
  refine ⟨rfl, ?_, hvgood, ?_, ?_, ?_, ?_⟩
  · unfold SaveWorkspace ValidateWorkspaceName
    rw [hbadEmpty, hbadAll]
    simp
  · simp [SaveWorkspace, hvgood]
  · simp [LoadWorkspace, habs]
  · simp [DeleteWorkspace, habs]
  · simp [LoadWorkspace, hhit, happ]

/-- Claim C7, witness: `Save("")` and `Save("a b")` fail with the two
validation messages, `"ok_1-2"` passes validation, and Load/Delete ignore
validity — loading the stored file named `a b` succeeds. -/
theorem name_validation_gates_save_only_witness :
    SaveWorkspace testEnv stIdle fsEmpty "" =
      .ok (.failure "Workspace name cannot be empty", fsEmpty) ∧
    SaveWorkspace testEnv stIdle fsEmpty "a b" =
      .ok (.failure "Workspace name can only contain letters, numbers, underscores, and hyphens", fsEmpty) ∧
    ValidateWorkspaceName "ok_1-2" = .success ∧
    SaveWorkspace testEnv stIdle fsEmpty "ok_1-2" =
      SaveWorkspaceAfterValidation testEnv stIdle fsEmpty "ok_1-2" ∧
    LoadWorkspace testEnv stIdle fsEmpty "nope" =
      .ok (.failure "Workspace file not found", stIdle, []) ∧
    DeleteWorkspace fsEmpty "nope" = .ok (.failure "Workspace does not exist", fsEmpty) ∧
    LoadWorkspace testEnv stIdle fsSpaceName "a b" =
      .ok (.success, stIdle,
        [Event.windowDeserialize (Json.obj []), Event.dockingDeserialize (Json.obj []),
         Event.toolbarDeserialize (Json.obj [])]) :=
  name_validation_gates_save_only testEnv stIdle fsEmpty fsEmpty fsSpaceName
    "a b" "ok_1-2" "nope" ' ' docV1
    [Event.windowDeserialize (Json.obj []), Event.dockingDeserialize (Json.obj []),
     Event.toolbarDeserialize (Json.obj [])]
    (by decide) (by decide) (by decide) (by decide) rfl rfl rfl

/-- Claim C8: on a successful version check, the `windows`, `docking` and
`toolbars` sub-documents are dispatched to the collaborators in that fixed
order; the first collaborator failure short-circuits the remaining
dispatches and is returned to the caller unchanged; and `LoadWorkspace`
never modifies the coordinator's drag state, so a `drag_state` sub-document
in the loaded file is never reapplied. -/
theorem load_dispatch_order_short_circuit
    (c₁ c₂ c₃ c₄ : Env) (doc jw jd jt : Json) (m₁ m₂ m₃ : String)
    (st : WMState) (fs : FS) (name : String)
    (er : Error) (s : WMState) (tr : List Event)
    (hv : doc.atKey "version" = .ok (Json.str "1.0"))
    (hw : doc.atKey "windows" = .ok jw)
    (hd : doc.atKey "docking" = .ok jd)
    (ht : doc.atKey "toolbars" = .ok jt)
    (h1w : c₁.windowDeserialize jw = .ok (.failure m₁))
    (h2w : c₂.windowDeserialize jw = .ok .success)
    (h2d : c₂.dockingDeserialize jd = .ok (.failure m₂))
    (h3w : c₃.windowDeserialize jw = .ok .success)
    (h3d : c₃.dockingDeserialize jd = .ok .success)
    (h3t : c₃.toolbarDeserialize jt = .ok (.failure m₃))
    (h4w : c₄.windowDeserialize jw = .ok .success)
    (h4d : c₄.dockingDeserialize jd = .ok .success)
    (h4t : c₄.toolbarDeserialize jt = .ok .success)
    (hload : LoadWorkspace c₄ st fs name = .ok (er, s, tr)) :
    DeserializeAndApplyState c₁ doc = (.failure m₁, [.windowDeserialize jw]) ∧
    DeserializeAndApplyState c₂ doc =
      (.failure m₂, [.windowDeserialize jw, .dockingDeserialize jd]) ∧
    DeserializeAndApplyState c₃ doc =
      (.failure m₃, [.windowDeserialize jw, .dockingDeserialize jd, .toolbarDeserialize jt]) ∧
    DeserializeAndApplyState c₄ doc =
      (.success, [.windowDeserialize jw, .dockingDeserialize jd, .toolbarDeserialize jt]) ∧
    s = st := by
  refine ⟨?_, ?_, ?_, ?_, ?_⟩
  · simp [DeserializeAndApplyState, DeserializeAndApplyStateBody, hv, Json.getStr,
      hw, h1w, Error.IsSuccess]
  · simp [DeserializeAndApplyState, DeserializeAndApplyStateBody, hv, Json.getStr,
      hw, hd, h2w, h2d, Error.IsSuccess]
  · simp [DeserializeAndApplyState, DeserializeAndApplyStateBody, hv, Json.getStr,
      hw, hd, ht, h3w, h3d, h3t, Error.IsSuccess]
  · simp [DeserializeAndApplyState, DeserializeAndApplyStateBody, hv, Json.getStr,
      hw, hd, ht, h4w, h4d, h4t, Error.IsSuccess]
  · unfold LoadWorkspace at hload
    cases hfile : fs.readFile (GetWorkspacePath name) with
    | none =>
      rw [hfile] at hload
      simp at hload
      exact hload.2.1.symm
    | some content =>
      cases content with
      | error m =>
        rw [hfile] at hload
        simp at hload
        exact hload.2.1.symm
      | ok d =>
        rw [hfile] at hload
        cases hdes : DeserializeAndApplyState c₄ d with
        | mk e₂ tr₂ =>
          simp [hdes] at hload
          exact hload.2.1.symm

/-- Claim C8, witness: the four dispatch scenarios on a concrete
version-`"1.0"` document, and a concrete load that leaves the state
untouched. -/
theorem load_dispatch_order_short_circuit_witness :
    DeserializeAndApplyState envWinFail docV1 =
      (.failure "window deserialize failed", [.windowDeserialize (Json.obj [])]) ∧
    DeserializeAndApplyState envDockFail docV1 =
      (.failure "docking deserialize failed",
        [.windowDeserialize (Json.obj []), .dockingDeserialize (Json.obj [])]) ∧
    DeserializeAndApplyState envToolFail docV1 =
      (.failure "toolbar deserialize failed",
        [.windowDeserialize (Json.obj []), .dockingDeserialize (Json.obj []),
         .toolbarDeserialize (Json.obj [])]) ∧
    DeserializeAndApplyState testEnv docV1 =
      (.success,
        [.windowDeserialize (Json.obj []), .dockingDeserialize (Json.obj []),
         .toolbarDeserialize (Json.obj [])]) ∧
    stIdle = stIdle :=
  load_dispatch_order_short_circuit envWinFail envDockFail envToolFail testEnv
    docV1 (Json.obj []) (Json.obj []) (Json.obj [])
    "window deserialize failed" "docking deserialize failed" "toolbar deserialize failed"
    stIdle fsV1 "w" .success stIdle
    [.windowDeserialize (Json.obj []), .dockingDeserialize (Json.obj []),
     .toolbarDeserialize (Json.obj [])]
    rfl rfl rfl rfl rfl rfl rfl rfl rfl rfl rfl rfl rfl rfl

/-- Claim C9: saving while a drag is active produces a document whose
`drag_state` object carries `element_id` / `element_type` equal to the id
and kind of the active drag (together with its position and docking
fields); saving with no active drag produces a document with no
`drag_state` key; both documents carry `version = "1.0"`, a `timestamp`,
and the `windows` / `docking` / `toolbars` sub-documents. -/
theorem save_drag_state_snapshot (c : Env) (stA stB : WMState) (e : DraggableElement)
    (jw jd jt docA docB : Json)
    (hw : c.windowSerialize = .ok jw) (hd : c.dockingSerialize = .ok jd)
    (ht : c.toolbarSerialize = .ok jt)
    (hA : stA.current_drag = some e) (hB : stB.current_drag = none)
    (hdocA : SerializeCurrentState c stA = .ok docA)
    (hdocB : SerializeCurrentState c stB = .ok docB) :
    docA.getKey "drag_state" = some (Json.obj
      [("element_id", Json.num e.id), ("element_type", Json.str e.type),
       ("position_x", Json.num e.x), ("position_y", Json.num e.y),
       ("is_docked", Json.bool e.isDocked), ("dock_location", Json.str e.dockLocation)]) ∧
    docB.getKey "drag_state" = none ∧
    docA.getKey "version" = some (Json.str "1.0") ∧
    docB.getKey "version" = some (Json.str "1.0") ∧
    docA.getKey "timestamp" = some (Json.num c.timestamp) ∧
    docB.getKey "timestamp" = some (Json.num c.timestamp) ∧
    docA.getKey "windows" = some jw ∧ docA.getKey "docking" = some jd ∧
    docA.getKey "toolbars" = some jt ∧
    docB.getKey "windows" = some jw ∧ docB.getKey "docking" = some jd ∧
    docB.getKey "toolbars" = some jt := by
  simp [SerializeCurrentState, hw, hd, ht, hA] at hdocA
  simp [SerializeCurrentState, hw, hd, ht, hB] at hdocB
  injection hdocA with hA₂
  injection hdocB with hB₂
  subst hA₂
  subst hB₂
  exact ⟨rfl, rfl, rfl, rfl, rfl, rfl, rfl, rfl, rfl, rfl, rfl, rfl⟩

/-- Claim C9, witness: serializing with the concrete drag `elemA` active
and with no drag, in `testEnv`. -/
theorem save_drag_state_snapshot_witness :
    (SerializeCurrentState testEnv stDrag).toOption.bind
        (fun d => d.getKey "drag_state") =
      some (Json.obj
        [("element_id", Json.num 1), ("element_type", Json.str "window"),
         ("position_x", Json.num 100), ("position_y", Json.num 100),
         ("is_docked", Json.bool false), ("dock_location", Json.str "")]) ∧
    (SerializeCurrentState testEnv stIdle).toOption.bind
        (fun d => d.getKey "drag_state") = none := by
  have h := save_drag_state_snapshot testEnv stDrag stIdle elemA
    (Json.obj [("w", Json.num 1)]) (Json.obj [("d", Json.num 2)])
    (Json.obj [("t", Json.num 3)])
    ((((((Json.null.setKey "windows" (Json.obj [("w", Json.num 1)])).setKey
        "docking" (Json.obj [("d", Json.num 2)])).setKey
        "toolbars" (Json.obj [("t", Json.num 3)])).setKey
        "drag_state" (Json.obj
          [("element_id", Json.num 1), ("element_type", Json.str "window"),
           ("position_x", Json.num 100), ("position_y", Json.num 100),
           ("is_docked", Json.bool false), ("dock_location", Json.str "")])).setKey
        "version" (Json.str "1.0")).setKey "timestamp" (Json.num 42))
    (((((Json.null.setKey "windows" (Json.obj [("w", Json.num 1)])).setKey
        "docking" (Json.obj [("d", Json.num 2)])).setKey
        "toolbars" (Json.obj [("t", Json.num 3)])).setKey
        "version" (Json.str "1.0")).setKey "timestamp" (Json.num 42))
    rfl rfl rfl rfl rfl rfl rfl
  exact ⟨by rw [show (SerializeCurrentState testEnv stDrag).toOption.bind
      (fun d => d.getKey "drag_state") =
      (((((((Json.null.setKey "windows" (Json.obj [("w", Json.num 1)])).setKey
        "docking" (Json.obj [("d", Json.num 2)])).setKey
        "toolbars" (Json.obj [("t", Json.num 3)])).setKey
        "drag_state" (Json.obj
          [("element_id", Json.num 1), ("element_type", Json.str "window"),
           ("position_x", Json.num 100), ("position_y", Json.num 100),
           ("is_docked", Json.bool false), ("dock_location", Json.str "")])).setKey
        "version" (Json.str "1.0")).setKey "timestamp" (Json.num 42)).getKey
        "drag_state") from rfl]; exact h.1,
    by rw [show (SerializeCurrentState testEnv stIdle).toOption.bind
      (fun d => d.getKey "drag_state") =
      ((((((Json.null.setKey "windows" (Json.obj [("w", Json.num 1)])).setKey
        "docking" (Json.obj [("d", Json.num 2)])).setKey
        "toolbars" (Json.obj [("t", Json.num 3)])).setKey
        "version" (Json.str "1.0")).setKey "timestamp" (Json.num 42)).getKey
        "drag_state") from rfl]; exact h.2.1⟩

/-- Claim C10: when the window collaborator reports no main window,
`IsValidDropTarget` returns `false` for every coordinate pair, and
`EndDrag` during an active drag fails with "Invalid drop target location"
even when both target coordinates are non-negative. -/
theorem no_main_window_invalid_target (c : Env) (st : WMState)
    (drag target : DraggableElement) (x y : Rat)
    (hmw : c.getMainWindow = none)
    (hdrag : st.current_drag = some drag)
    (hx : 0 ≤ target.x) (hy : 0 ≤ target.y) :
    IsValidDropTarget c x y = false ∧
    EndDrag c st target =
      .ok (.failure "Invalid drop target location",
        { st with current_drag := none }, []) := by
  have hiv : ∀ a b : Rat, IsValidDropTarget c a b = false := by
    intro a b
    unfold IsValidDropTarget
    rw [hmw]
    by_cases ha : a < 0
    · simp [ha]
    · by_cases hb : b < 0 <;> simp [ha, hb]
  exact ⟨hiv x y, by simp [EndDrag, hdrag, EndDragBody, hiv target.x target.y]⟩

/-- Claim C10, witness: with no main window, the in-bounds-looking point
`(5, 5)` is rejected and the concrete drag fails at the non-negative target
`(200, 150)`. -/
theorem no_main_window_invalid_target_witness :
    IsValidDropTarget envNoWindow 5 5 = false ∧
    EndDrag envNoWindow stDrag targetA =
      .ok (.failure "Invalid drop target location",
        { stDrag with current_drag := none }, []) :=
  no_main_window_invalid_target envNoWindow stDrag elemA targetA 5 5
    rfl rfl (by decide) (by decide)

end RebelCad
